import Mathlib

/-!
Verification development for the guestbook application in `final.py`.

The Python program is shallowly embedded: pure fragments become Lean
functions, the Streamlit session dictionary becomes an explicit state
record, and the external services (the `chinese_calendar` holiday lookup
and the Google-Sheets row store) become explicit parameters describing
the outcome of each external call.
-/

/-- Boolean test that the first character list is a prefix of the second. -/
def prefixOfChars : List Char → List Char → Bool
  | [], _ => true
  | _ :: _, [] => false
  | a :: as, b :: bs => a == b && prefixOfChars as bs

/-- Boolean test that `needle` occurs as a contiguous substring of the
second list (Python's `needle in hay` on strings, on the character level). -/
def subChars (needle : List Char) : List Char → Bool
  | [] => needle.isEmpty
  | c :: t => prefixOfChars needle (c :: t) || subChars needle t

/-- Embeds the Python substring test `needle in hay` for strings. -/
def strContains (hay needle : String) : Bool :=
  subChars needle.data hay.data

/-- Embeds `any(name in hay for name in names)` from the holiday matching. -/
def containsAny (hay : String) (names : List String) : Bool :=
  names.any (fun n => strContains hay n)

namespace Theme

/-- Theme.SPRING from `final.py`. -/
def SPRING : String := "春季"

/-- Theme.SUMMER from `final.py`. -/
def SUMMER : String := "夏季"

/-- Theme.AUTUMN from `final.py`. -/
def AUTUMN : String := "秋季"

/-- Theme.WINTER from `final.py`. -/
def WINTER : String := "冬季"

/-- Theme.CHINESE_NEW_YEAR from `final.py`. -/
def CHINESE_NEW_YEAR : String := "春節"

/-- Theme.QINGMING from `final.py`. -/
def QINGMING : String := "清明節"

/-- Theme.DRAGON_BOAT from `final.py`. -/
def DRAGON_BOAT : String := "端午節"

/-- Theme.MID_AUTUMN from `final.py`. -/
def MID_AUTUMN : String := "中秋節"

/-- Theme.CHRISTMAS from `final.py`. -/
def CHRISTMAS : String := "聖誕節"

/-- Theme.DEFAULT from `final.py`. -/
def DEFAULT : String := "預設"

end Theme

/-- Outcome of the external `chinese_calendar` calls made by
`detect_season_or_festival`: whether the calls raise, whether
`is_holiday(now.date())` returns true, and the holiday name delivered by
`get_holiday_detail` (`none` models Python `None`). -/
structure CalendarInfo where
  raises : Bool
  is_holiday : Bool
  holiday_name : Option String
deriving DecidableEq, Repr

/-- Result of the `chinese_calendar` branch of `detect_season_or_festival`
(the `try:` block): `some` when that block returns a theme, `none` when the
block falls through (exception, non-holiday, missing or unmatched name). -/
def calTheme (cal : CalendarInfo) : Option (String × String) :=
  if cal.raises then none
  else if cal.is_holiday then
    match cal.holiday_name with
    | some hname =>
      if hname ≠ "" then
        if containsAny hname ["春節", "除夕", "初一", "大年初"] then
          some (Theme.CHINESE_NEW_YEAR, "春節主題：喜慶的紅金配色，象徵新年的祝福與喜悅")
        else if strContains hname "清明" then
          some (Theme.QINGMING, "清明節主題：清新綠色，象徵生機與懷念")
        else if strContains hname "端午" then
          some (Theme.DRAGON_BOAT, "端午節主題：代表端午的五彩裝飾與艾草綠")
        else if strContains hname "中秋" then
          some (Theme.MID_AUTUMN, "中秋節主題：皎潔的月色和溫暖的燈籠橘")
        else none
      else none
    | none => none
  else none

/-- Embedding of `detect_season_or_festival` from `final.py`; the current
date is passed as month and day, the external calendar as `cal`. -/
def detect_season_or_festival (cal : CalendarInfo) (current_month current_day : Nat) :
    String × String :=
  (calTheme cal).getD <|
    if (current_month = 1 ∧ 20 ≤ current_day) ∨ (current_month = 2 ∧ current_day ≤ 20) then
      (Theme.CHINESE_NEW_YEAR, "春節主題：喜慶的紅金配色，象徵新年的祝福與喜悅")
    else if current_month = 4 ∧ (current_day = 4 ∨ current_day = 5) then
      (Theme.QINGMING, "清明節主題：清新綠色，象徵生機與懷念")
    else if (current_month = 5 ∧ 25 ≤ current_day) ∨ (current_month = 6 ∧ current_day ≤ 5) then
      (Theme.DRAGON_BOAT, "端午節主題：代表端午的五彩裝飾與艾草綠")
    else if current_month = 9 ∧ 15 ≤ current_day ∧ current_day ≤ 25 then
      (Theme.MID_AUTUMN, "中秋節主題：皎潔的月色和溫暖的燈籠橘")
    else if current_month = 12 ∧ 15 ≤ current_day ∧ current_day ≤ 31 then
      (Theme.CHRISTMAS, "聖誕節主題：紅綠相間的經典聖誕配色與雪花點綴")
    else if 3 ≤ current_month ∧ current_month ≤ 5 then
      (Theme.SPRING, "春季主題：嫩綠漸變背景配以淡雅花朵點綴")
    else if 6 ≤ current_month ∧ current_month ≤ 8 then
      (Theme.SUMMER, "夏季主題：海藍漸變背景搭配明亮陽光元素")
    else if 9 ≤ current_month ∧ current_month ≤ 11 then
      (Theme.AUTUMN, "秋季主題：暖橙褐色背景與秋葉圖案")
    else
      (Theme.WINTER, "冬季主題：冰藍色背景與雪花圖案")

/-- Spec-side predicate: the holiday name reported by the calendar matches
one of the four festival keyword groups recognized by the program. -/
def matchesFestivalName (hname : String) : Bool :=
  containsAny hname ["春節", "除夕", "初一", "大年初"] ||
    strContains hname "清明" || strContains hname "端午" || strContains hname "中秋"

/-- Spec-side predicate: the external calendar reports (without raising) a
holiday whose nonempty name matches a recognized festival. -/
def calMatchesFestival (cal : CalendarInfo) : Bool :=
  !cal.raises && cal.is_holiday &&
    (match cal.holiday_name with
     | some n => (n != "") && matchesFestivalName n
     | none => false)

/-- Declared holiday windows as stated in the specification: Chinese New
Year Jan 20 to Feb 20, Qingming Apr 4 to 5, Dragon Boat May 25 to Jun 5,
Mid-Autumn Sep 15 to 25, Christmas Dec 15 to 31. -/
def windowThemeOf (month day : Nat) : Option String :=
  if (month = 1 ∧ 20 ≤ day) ∨ (month = 2 ∧ day ≤ 20) then some Theme.CHINESE_NEW_YEAR
  else if month = 4 ∧ (day = 4 ∨ day = 5) then some Theme.QINGMING
  else if (month = 5 ∧ 25 ≤ day) ∨ (month = 6 ∧ day ≤ 5) then some Theme.DRAGON_BOAT
  else if month = 9 ∧ 15 ≤ day ∧ day ≤ 25 then some Theme.MID_AUTUMN
  else if month = 12 ∧ 15 ≤ day ∧ day ≤ 31 then some Theme.CHRISTMAS
  else none

/-- Month-to-season mapping exactly as the specification words it: spring
for months 3 to 5, summer for 6 to 8, autumn for 9 to 11, winter for
12, 1, 2; `none` outside the twelve calendar months. -/
def seasonOfMonth (month : Nat) : Option String :=
  if month = 3 ∨ month = 4 ∨ month = 5 then some Theme.SPRING
  else if month = 6 ∨ month = 7 ∨ month = 8 then some Theme.SUMMER
  else if month = 9 ∨ month = 10 ∨ month = 11 then some Theme.AUTUMN
  else if month = 12 ∨ month = 1 ∨ month = 2 then some Theme.WINTER
  else none

/-- Holiday theme identifiers of the program. -/
def holidayThemes : List String :=
  [Theme.CHINESE_NEW_YEAR, Theme.QINGMING, Theme.DRAGON_BOAT, Theme.MID_AUTUMN, Theme.CHRISTMAS]

/-- Seasonal theme identifiers of the program. -/
def seasonThemes : List String :=
  [Theme.SPRING, Theme.SUMMER, Theme.AUTUMN, Theme.WINTER]

/-- Session dictionary of the application, as initialized in `final.py`
(the `liked_messages` set is omitted: no claim concerns it). -/
structure SessionState where
  tab_selection : Nat
  refresh_data : Bool
  message_submitted : Bool
  view_mode : String
  filter_mood : String
  animation_done : Bool
  show_wordcloud : Bool
  submission_success : Bool
  search_query : String
  search_by : String
deriving DecidableEq, Repr

/-- Default session state from the initialization block of `final.py`. -/
def initSessionState : SessionState where
  tab_selection := 0
  refresh_data := false
  message_submitted := false
  view_mode := "卡片模式"
  filter_mood := "全部心情"
  animation_done := false
  show_wordcloud := false
  submission_success := false
  search_query := ""
  search_by := "內容"

/-- Mood label texts from the compose form. -/
def moods_text : List String := ["開心", "難過", "生氣", "疲倦", "感動", "思考中"]

/-- Mood emojis from the compose form. -/
def mood_emojis : List String := ["😊", "😢", "😡", "😴", "🥰", "🤔"]

/-- Combined mood options, `f"{emoji} {text}"` in the source. -/
def moods_display : List String :=
  (mood_emojis.zip moods_text).map (fun p => p.1 ++ " " ++ p.2)

/-- Embeds `"匿名用戶" if anonymous else name or "匿名用戶"` (Python `or`
yields the placeholder exactly when `name` is empty). -/
def display_name (anonymous : Bool) (name : String) : String :=
  if anonymous then "匿名用戶" else if name = "" then "匿名用戶" else name

/-- Outcome of the external row-store calls during one submission:
whether `connect_to_gsheets()` returns a sheet (it returns `None` after
showing its own error otherwise), and whether `append_row` raises. -/
structure World where
  connect_ok : Bool
  append_raises : Bool
deriving DecidableEq, Repr

/-- Observable effects of the submit handler: the inline validation error,
the row passed to `append_row` (if the call happened), and the caught
exception message of the `except` branch. -/
structure SubmitResult where
  validation_error : Bool
  appendedRow : Option (List String)
  error_message : Bool
deriving DecidableEq, Repr

/-- Embedding of the form submit handler (`if submitted:` block of
`final.py`): validates the message, connects, appends
`[display_name, message, selected_mood, current_time]`, and on success
sets `submission_success` and `refresh_data` before rerunning. -/
def handleSubmit (w : World) (name message : String) (anonymous : Bool)
    (mood_index : Nat) (current_time : String) (s : SessionState) :
    SubmitResult × SessionState :=
  if message = "" then (⟨true, none, false⟩, s)
  else if w.connect_ok then
    if w.append_raises then (⟨false, none, true⟩, s)
    else
      (⟨false,
        some [display_name anonymous name, message,
              moods_display.getD mood_index "", current_time],
        false⟩,
       { s with submission_success := true, refresh_data := true })
  else (⟨false, none, false⟩, s)

/-- Embedding of the compose-tab acknowledgment block: when
`submission_success` is set, the success message is shown and the flag is
cleared. Returns whether the acknowledgment was shown, and the new state. -/
def composeRender (s : SessionState) : Bool × SessionState :=
  if s.submission_success then (true, { s with submission_success := false })
  else (false, s)

/-- Embedding of the view-mode selectbox handler in the browse tab. -/
def viewModeChange (s : SessionState) (selected_view : String) : SessionState :=
  if selected_view ≠ s.view_mode then
    { s with view_mode := selected_view, animation_done := false }
  else s

/-- Embedding of the refresh-button handler in the browse tab. -/
def refreshClick (s : SessionState) : SessionState :=
  { s with refresh_data := true, animation_done := false }

/-- Embedding of the search text-input handler in the browse tab. -/
def searchQueryChange (s : SessionState) (q : String) : SessionState :=
  if q ≠ s.search_query then { s with search_query := q } else s

/-- Embedding of the search-scope selectbox handler in the browse tab. -/
def searchByChange (s : SessionState) (b : String) : SessionState :=
  if b ≠ s.search_by then { s with search_by := b } else s

/-- Embedding of the mood-filter selectbox handler in the browse tab. -/
def moodFilterChange (s : SessionState) (sel : String) : SessionState :=
  if sel ≠ s.filter_mood then
    { s with filter_mood := sel, animation_done := false }
  else s

/-- Message record: a Python dictionary from header names to cell values,
modelled as an insertion-ordered association list with unique keys kept
unique by `dictInsert`. -/
abbrev Record := List (String × String)

/-- Embeds Python `entry.get(k, d)`. -/
def recordGetD (r : Record) (k d : String) : String :=
  match r.find? (fun p => p.1 == k) with
  | some p => p.2
  | none => d

/-- Embeds Python dictionary assignment `record[k] = v`: overwrite in
place when the key exists, append otherwise. -/
def dictInsert (r : Record) (k v : String) : Record :=
  if r.any (fun p => p.1 == k) then
    r.map (fun p => if p.1 == k then (k, v) else p)
  else r ++ [(k, v)]

/-- Embeds the record-building loop: `record[unique_headers[i]] = row[i]`
for every index `i` with `i < len(row)` and `i < len(unique_headers)`. -/
def buildRecord (headers : List String) (row : List String) : Record :=
  (headers.zip row).foldl (fun r kv => dictInsert r kv.1 kv.2) []

/-- Decimal digit list of a natural number, fuel-indexed so that it
reduces definitionally; `natDigitsAux (n+1) n` is the digits of `n`. -/
def natDigitsAux : Nat → Nat → List Char
  | 0, _ => []
  | fuel + 1, n =>
    if n < 10 then [Nat.digitChar n]
    else natDigitsAux fuel (n / 10) ++ [Nat.digitChar (n % 10)]

/-- Decimal rendering of a natural number, the Lean image of Python
`f"{i}"` for a nonnegative integer. -/
def natStr (n : Nat) : String :=
  ⟨natDigitsAux (n + 1) n⟩

/-- The disambiguated name `f"{header}_{i}"` from `final.py`. -/
def suffixName (header : String) (i : Nat) : String :=
  header ++ "_" ++ natStr i

/-- Loop body of the `unique_headers` construction: running accumulator
`acc`, current index `i`, remaining headers. -/
def uniqueHeadersFrom (acc : List String) (i : Nat) : List String → List String
  | [] => acc
  | h :: t =>
    if h ∈ acc then uniqueHeadersFrom (acc ++ [suffixName h i]) (i + 1) t
    else uniqueHeadersFrom (acc ++ [h]) (i + 1) t

/-- Embedding of the `unique_headers` construction of `final.py`. -/
def uniqueHeaders (headers : List String) : List String :=
  uniqueHeadersFrom [] 0 headers

/-- Embedding of the row-parsing block of the browse tab: with at most one
row (header only, or empty snapshot) no records are built; otherwise the
first row becomes the disambiguated header list and every later row maps
positionally into a record. -/
def parseRows : List (List String) → List Record
  | [] => []
  | headers :: rest =>
    if rest.isEmpty then []
    else rest.map (fun row => buildRecord (uniqueHeaders headers) row)

/-- Embeds one step of the counting dictionaries in `count_moods` and the
`mood_data` aggregation: increment the entry of `k`, inserting it at count
one when absent (insertion order preserved, as for a Python dict). -/
def bumpCount (m : List (String × Nat)) (k : String) : List (String × Nat) :=
  match m with
  | [] => [(k, 1)]
  | (k0, v) :: rest =>
    if k0 == k then (k0, v + 1) :: rest else (k0, v) :: bumpCount rest k

/-- Lookup in a counting dictionary; zero when absent. -/
def lookupCount : List (String × Nat) → String → Nat
  | [], _ => 0
  | (k0, v) :: rest, k => if k0 == k then v else lookupCount rest k

/-- Embedding of `count_moods` from `final.py` (and of the identical
`mood_data` aggregation in the browse tab, whose key defaults to the
mood column name): each entry's mood, defaulting to 未知 when the key is
missing, is tallied. -/
def count_moods (mood_col : String) (data : List Record) : List (String × Nat) :=
  data.foldl (fun m entry => bumpCount m (recordGetD entry mood_col "未知")) []

/-- Embedding of the `filtered_data` pipeline of the browse tab: the mood
filter, then the search filter over the chosen field, both exactly as in
the source. -/
def filtered_data (data : List Record) (mood_col msg_col name_col : String)
    (selected_mood search_query search_by : String) : List Record :=
  let fd := if selected_mood ≠ "全部心情" then
      data.filter (fun entry => recordGetD entry mood_col "" == selected_mood)
    else data
  if search_query ≠ "" then
    if search_by == "內容" then
      fd.filter (fun entry =>
        strContains (recordGetD entry msg_col "").toLower search_query.toLower)
    else if search_by == "用戶名" then
      fd.filter (fun entry =>
        strContains (recordGetD entry name_col "").toLower search_query.toLower)
    else fd
  else fd

/-- Spec-side mood-equality filter: identity for 全部心情, otherwise keep
exactly the records whose mood field equals the selected mood. -/
def moodEqFilter (data : List Record) (mood_col selected_mood : String) : List Record :=
  if selected_mood = "全部心情" then data
  else data.filter (fun entry => recordGetD entry mood_col "" == selected_mood)

/-- Spec-side case-insensitive substring search filter over the field
chosen by the search scope: identity for an empty query. -/
def searchScopeFilter (data : List Record) (msg_col name_col : String)
    (search_query search_by : String) : List Record :=
  if search_query = "" then data
  else
    data.filter (fun entry =>
      strContains
        (recordGetD entry (if search_by = "內容" then msg_col else name_col) "").toLower
        search_query.toLower)

/-- Decimal value of a digit list, used to invert `natDigitsAux`. -/
def valD (l : List Char) : Nat :=
  l.foldl (fun a c => a * 10 + (c.toNat - 48)) 0

/-- Invariant of the `unique_headers` loop: the accumulator is pairwise
distinct and each entry is either underscore-free or a `suffixName` built
from an underscore-free header at an index below the current one. -/
def GoodAcc (k : Nat) (acc : List String) : Prop :=
  acc.Pairwise (· ≠ ·) ∧
  ∀ s ∈ acc, (('_' : Char) ∉ s.data) ∨
    ∃ h j, ('_' : Char) ∉ h.data ∧ j < k ∧ s = suffixName h j

/-- C1: submitting with empty message content always raises the inline
validation error and never calls the row-store append; a row is appended
only when the message content is non-empty. -/
theorem c1_empty_message_never_appends (w : World) (name : String) (anonymous : Bool)
    (mood_index : Nat) (current_time : String) (s : SessionState) :
    ((handleSubmit w name "" anonymous mood_index current_time s).1.validation_error = true ∧
      (handleSubmit w name "" anonymous mood_index current_time s).1.appendedRow = none) ∧
    ∀ message : String,
      (handleSubmit w name message anonymous mood_index current_time s).1.appendedRow ≠ none →
      message ≠ "" := by
  constructor
  · simp [handleSubmit]
  · intro message h hme
    subst hme
    simp [handleSubmit] at h

/-- Witness for C1 at a concrete submission. -/
theorem c1_witness :
    (handleSubmit ⟨true, false⟩ "Alice" "" false 0 "2024-05-01 10:00:00"
        initSessionState).1.appendedRow = none ∧ ("hello" : String) ≠ "" := by
  constructor
  · exact (c1_empty_message_never_appends ⟨true, false⟩ "Alice" false 0
      "2024-05-01 10:00:00" initSessionState).1.2
  · exact (c1_empty_message_never_appends ⟨true, false⟩ "Alice" false 0
      "2024-05-01 10:00:00" initSessionState).2 "hello" (by decide)

/-- C8 counterexample: a successful submission (the append call happened)
leaves `tab_selection` at 0 (compose); it does not transition to the
browse tab. -/
theorem c8_counterexample :
    (handleSubmit ⟨true, false⟩ "Alice" "hello" false 0 "t"
        initSessionState).1.appendedRow.isSome = true ∧
    (handleSubmit ⟨true, false⟩ "Alice" "hello" false 0 "t"
        initSessionState).2.tab_selection ≠ 1 := by decide

/-- C8 amended: a successful submission keeps the active tab unchanged
(the app stays on the compose tab) and sets the just-submitted flag, which
is consumed exactly once: the next compose render shows the acknowledgment
and clears the flag, and a further render does not show it again. -/
theorem c8_flag_consumed_once (w : World) (name message : String) (anonymous : Bool)
    (mood_index : Nat) (current_time : String) (s : SessionState)
    (hc : w.connect_ok = true) (ha : w.append_raises = false) (hm : message ≠ "") :
    (handleSubmit w name message anonymous mood_index current_time s).2.tab_selection
        = s.tab_selection ∧
    (handleSubmit w name message anonymous mood_index current_time s).2.submission_success
        = true ∧
    (composeRender (handleSubmit w name message anonymous mood_index current_time s).2).1
        = true ∧
    (composeRender (handleSubmit w name message anonymous mood_index current_time
        s).2).2.submission_success = false ∧
    (composeRender (composeRender (handleSubmit w name message anonymous mood_index
        current_time s).2).2).1 = false := by
  simp [handleSubmit, composeRender, hm, hc, ha]

/-- Witness for C8 at a concrete successful submission. -/
theorem c8_witness :
    (composeRender (handleSubmit ⟨true, false⟩ "Alice" "hi" false 0 "t"
        initSessionState).2).1 = true ∧
    (composeRender (composeRender (handleSubmit ⟨true, false⟩ "Alice" "hi" false 0 "t"
        initSessionState).2).2).1 = false := by
  constructor
  · exact (c8_flag_consumed_once ⟨true, false⟩ "Alice" "hi" false 0 "t"
      initSessionState rfl rfl (by decide)).2.2.1
  · exact (c8_flag_consumed_once ⟨true, false⟩ "Alice" "hi" false 0 "t"
      initSessionState rfl rfl (by decide)).2.2.2.2

/-- C9 counterexample: changing the search text is a control change in the
browse tab, yet it leaves the one-shot `animation_done` flag set. -/
theorem c9_counterexample :
    ("abc" : String) ≠
      ({ initSessionState with animation_done := true } : SessionState).search_query ∧
    ¬ (searchQueryChange { initSessionState with animation_done := true }
        "abc").animation_done = false := by decide

/-- C9 amended: a view-mode change, a mood-filter change, and the refresh
button reset `animation_done` to false; search-text and search-scope
changes leave the flag untouched. -/
theorem c9_animation_flag (s : SessionState) (v m q b : String)
    (hv : v ≠ s.view_mode) (hm : m ≠ s.filter_mood) :
    (viewModeChange s v).animation_done = false ∧
    (moodFilterChange s m).animation_done = false ∧
    (refreshClick s).animation_done = false ∧
    (searchQueryChange s q).animation_done = s.animation_done ∧
    (searchByChange s b).animation_done = s.animation_done := by
  refine ⟨?_, ?_, rfl, ?_, ?_⟩
  · simp [viewModeChange, hv]
  · simp [moodFilterChange, hm]
  · unfold searchQueryChange
    split <;> rfl
  · unfold searchByChange
    split <;> rfl

/-- Witness for C9 at concrete control changes. -/
theorem c9_witness :
    (viewModeChange initSessionState "網格模式").animation_done = false ∧
    (searchQueryChange initSessionState "abc").animation_done
      = initSessionState.animation_done := by
  constructor
  · exact (c9_animation_flag initSessionState "網格模式" "😊 開心" "abc" "用戶名"
      (by decide) (by decide)).1
  · exact (c9_animation_flag initSessionState "網格模式" "😊 開心" "abc" "用戶名"
      (by decide) (by decide)).2.2.2.1

/-- C10 counterexample: a non-anonymous submission whose entered name is
literally the placeholder reaches the append call and stores the
placeholder as author, although the checkbox is unchecked and the name is
non-empty; the biconditional in the claim fails. -/
theorem c10_counterexample :
    (handleSubmit ⟨true, false⟩ "匿名用戶" "hi" false 0 "t"
        initSessionState).1.appendedRow = some ["匿名用戶", "hi", "😊 開心", "t"] ∧
    ¬ ((false : Bool) = true ∨ ("匿名用戶" : String) = "") := by decide

/-- C10 amended: for every submission that reaches the append call, the
stored author is the placeholder whenever the anonymous box is checked or
the entered name is empty, and is the entered name otherwise; the
biconditional of the claim holds under the proviso that the entered name
is not itself the placeholder string. -/
theorem c10_author_rule (w : World) (name message : String) (anonymous : Bool)
    (mood_index : Nat) (current_time : String) (s : SessionState) (row : List String)
    (h : (handleSubmit w name message anonymous mood_index current_time s).1.appendedRow
        = some row) :
    ((anonymous = true ∨ name = "") → row.head? = some "匿名用戶") ∧
    (anonymous = false → name ≠ "" → row.head? = some name) ∧
    (name ≠ "匿名用戶" →
      (row.head? = some "匿名用戶" ↔ (anonymous = true ∨ name = ""))) := by
  have hrow : row = [display_name anonymous name, message,
      moods_display.getD mood_index "", current_time] := by
    unfold handleSubmit at h
    split_ifs at h
    all_goals simp_all
  subst hrow
  unfold display_name
  refine ⟨?_, ?_, ?_⟩
  · rintro (ha | hn)
    · simp [ha]
    · cases anonymous <;> simp [hn]
  · intro ha hn
    subst ha
    simp [hn]
  · intro hnp
    cases anonymous
    · by_cases hn : name = "" <;> simp [hn, hnp]
    · simp

/-- Witness for C10 at a concrete submission. -/
theorem c10_witness :
    (["Bob", "hi", "😊 開心", "t"] : List String).head? = some "Bob" := by
  exact (c10_author_rule ⟨true, false⟩ "Bob" "hi" false 0 "t" initSessionState
    ["Bob", "hi", "😊 開心", "t"] (by decide)).2.1 rfl (by decide)

/-- Helper: when the calendar raises or reports no holiday, the calendar
branch yields nothing. -/
theorem calTheme_quiet (cal : CalendarInfo)
    (h : cal.raises = true ∨ cal.is_holiday = false) : calTheme cal = none := by
  unfold calTheme
  rcases h with h | h <;> simp [h]

/-- Helper: the calendar branch yields nothing unless the reported holiday
name matches a recognized festival. -/
theorem calTheme_none_of_not_matches (cal : CalendarInfo)
    (h : calMatchesFestival cal = false) : calTheme cal = none := by
  obtain ⟨rs, ihol, hn⟩ := cal
  unfold calMatchesFestival at h
  unfold calTheme
  cases rs with
  | true => rfl
  | false =>
    cases ihol with
    | false => rfl
    | true =>
      cases hn with
      | none => rfl
      | some n =>
        by_cases hne : n = ""
        · simp [hne]
        · have h5 : matchesFestivalName n = false := by
            simpa [hne] using h
          unfold matchesFestivalName at h5
          simp only [Bool.or_eq_false_iff] at h5
          obtain ⟨⟨⟨h1, h2⟩, h3⟩, h4⟩ := h5
          simp [hne, h1, h2, h3, h4]

/-- Helper: a matching calendar holiday makes the calendar branch return a
holiday theme. -/
theorem calTheme_matches (cal : CalendarInfo) (h : calMatchesFestival cal = true) :
    ∃ p, calTheme cal = some p ∧ p.1 ∈ holidayThemes := by
  obtain ⟨rs, ihol, hn⟩ := cal
  unfold calMatchesFestival at h
  simp only [Bool.and_eq_true, Bool.not_eq_true'] at h
  obtain ⟨⟨hrs, hihol⟩, hm⟩ := h
  subst hrs
  subst hihol
  cases hn with
  | none => simp at hm
  | some n =>
    simp only [Bool.and_eq_true, bne_iff_ne, ne_eq] at hm
    obtain ⟨hne, hmf⟩ := hm
    unfold matchesFestivalName at hmf
    by_cases h1 : containsAny n ["春節", "除夕", "初一", "大年初"] = true
    · exact ⟨(Theme.CHINESE_NEW_YEAR, "春節主題：喜慶的紅金配色，象徵新年的祝福與喜悅"),
        by simp [calTheme, hne, h1], by decide⟩
    · rw [Bool.not_eq_true] at h1
      by_cases h2 : strContains n "清明" = true
      · exact ⟨(Theme.QINGMING, "清明節主題：清新綠色，象徵生機與懷念"),
          by simp [calTheme, hne, h1, h2], by decide⟩
      · rw [Bool.not_eq_true] at h2
        by_cases h3 : strContains n "端午" = true
        · exact ⟨(Theme.DRAGON_BOAT, "端午節主題：代表端午的五彩裝飾與艾草綠"),
            by simp [calTheme, hne, h1, h2, h3], by decide⟩
        · rw [Bool.not_eq_true] at h3
          by_cases h4 : strContains n "中秋" = true
          · exact ⟨(Theme.MID_AUTUMN, "中秋節主題：皎潔的月色和溫暖的燈籠橘"),
              by simp [calTheme, hne, h1, h2, h3, h4], by decide⟩
          · rw [Bool.not_eq_true] at h4
            simp [h1, h2, h3, h4] at hmf

/-- Helper: with a silent calendar branch, a date inside a declared window
yields exactly that window's theme. -/
theorem detect_window (cal : CalendarInfo) (m d : Nat) (t : String)
    (hc : calTheme cal = none) (hw : windowThemeOf m d = some t) :
    (detect_season_or_festival cal m d).1 = t := by
  unfold detect_season_or_festival
  rw [hc]
  simp only [Option.getD_none]
  unfold windowThemeOf at hw
  split_ifs at hw ⊢ <;> simp_all

/-- Helper: a matching calendar holiday always produces a holiday theme. -/
theorem detect_matches (cal : CalendarInfo) (m d : Nat)
    (h : calMatchesFestival cal = true) :
    (detect_season_or_festival cal m d).1 ∈ holidayThemes := by
  obtain ⟨p, hp, hmem⟩ := calTheme_matches cal h
  unfold detect_season_or_festival
  rw [hp]
  simpa using hmem

/-- Helper: every declared window carries a holiday theme. -/
theorem windowTheme_mem (m d : Nat) (t : String) (hw : windowThemeOf m d = some t) :
    t ∈ holidayThemes := by
  unfold windowThemeOf at hw
  split_ifs at hw <;> simp_all [holidayThemes]

/-- C2 counterexample: October 1 with the external calendar reporting a
holiday whose name (National Day) matches no recognized festival: the date
is a calendar-reported holiday, yet the program returns the autumn
seasonal theme, not a holiday theme. -/
theorem c2_counterexample :
    (⟨false, true, some "国庆节"⟩ : CalendarInfo).raises = false ∧
    (⟨false, true, some "国庆节"⟩ : CalendarInfo).is_holiday = true ∧
    (detect_season_or_festival ⟨false, true, some "国庆节"⟩ 10 1).1 = Theme.AUTUMN ∧
    Theme.AUTUMN ∈ seasonThemes ∧ Theme.AUTUMN ∉ holidayThemes := by decide

/-- C2 amended: holiday precedence holds for the fixed holiday windows and
for calendar-reported holidays whose name matches a recognized festival:
in those cases the result is a holiday theme and never a seasonal theme,
and with no matching calendar holiday a date inside a declared window
yields exactly that window's theme. (Calendar-reported holidays with an
unmatched name fall through to the date rules.) -/
theorem c2_holiday_precedence (cal : CalendarInfo) (m d : Nat) :
    ((calMatchesFestival cal = true ∨ (windowThemeOf m d).isSome = true) →
      (detect_season_or_festival cal m d).1 ∈ holidayThemes ∧
      (detect_season_or_festival cal m d).1 ∉ seasonThemes) ∧
    (calMatchesFestival cal = false → ∀ t, windowThemeOf m d = some t →
      (detect_season_or_festival cal m d).1 = t) := by
  have hdisj : ∀ x ∈ holidayThemes, x ∉ seasonThemes := by decide
  constructor
  · intro h
    have hmem : (detect_season_or_festival cal m d).1 ∈ holidayThemes := by
      by_cases hcm : calMatchesFestival cal = true
      · exact detect_matches cal m d hcm
      · have hcf : calMatchesFestival cal = false := by
          cases hb : calMatchesFestival cal
          · rfl
          · exact absurd hb hcm
        rcases h with h | h
        · exact absurd h hcm
        · obtain ⟨t, ht⟩ := Option.isSome_iff_exists.1 h
          rw [detect_window cal m d t (calTheme_none_of_not_matches cal hcf) ht]
          exact windowTheme_mem m d t ht
    exact ⟨hmem, hdisj _ hmem⟩
  · intro hcm t ht
    exact detect_window cal m d t (calTheme_none_of_not_matches cal hcm) ht

/-- Witness for C2: July 1 with the calendar reporting 春節 still gets the
Chinese-New-Year (holiday) theme, not the summer one. -/
theorem c2_witness :
    (detect_season_or_festival ⟨false, true, some "春節"⟩ 7 1).1 ∈ holidayThemes ∧
    (detect_season_or_festival ⟨false, true, some "春節"⟩ 7 1).1 ∉ seasonThemes :=
  (c2_holiday_precedence ⟨false, true, some "春節"⟩ 7 1).1 (Or.inl (by decide))

set_option maxHeartbeats 1000000 in
/-- C3: outside every holiday window, with the calendar reporting no
holiday (or failing), the detector returns exactly the season the
specification's month table assigns, for each of the twelve months. -/
theorem c3_season_mapping (cal : CalendarInfo) (m d : Nat)
    (hcal : cal.raises = true ∨ cal.is_holiday = false)
    (hout : windowThemeOf m d = none) (hm1 : 1 ≤ m) (hm2 : m ≤ 12) :
    seasonOfMonth m = some (detect_season_or_festival cal m d).1 := by
  have hc := calTheme_quiet cal hcal
  unfold detect_season_or_festival
  rw [hc]
  simp only [Option.getD_none]
  unfold windowThemeOf at hout
  unfold seasonOfMonth
  split_ifs at hout ⊢ <;> first | rfl | (exfalso; omega)

/-- Witness for C3 at July 10 with a silent calendar. -/
theorem c3_witness :
    seasonOfMonth 7 = some (detect_season_or_festival ⟨false, false, none⟩ 7 10).1 :=
  c3_season_mapping ⟨false, false, none⟩ 7 10 (Or.inr rfl) (by decide) (by decide)
    (by decide)

/-- C4: the browse-tab `filtered_data` pipeline equals the mood-equality
filter (identity for 全部心情) followed by the case-insensitive substring
search filter over the field chosen by the search scope (identity for an
empty query). -/
theorem c4_filter_pipeline (data : List Record) (mood_col msg_col name_col : String)
    (selected_mood search_query search_by : String)
    (h : search_by = "內容" ∨ search_by = "用戶名") :
    filtered_data data mood_col msg_col name_col selected_mood search_query search_by =
      searchScopeFilter (moodEqFilter data mood_col selected_mood) msg_col name_col
        search_query search_by := by
  unfold filtered_data moodEqFilter searchScopeFilter
  rcases h with h | h <;> subst h <;>
    by_cases hs : selected_mood = "全部心情" <;> by_cases hq : search_query = "" <;>
      simp [hs, hq]

/-- Witness for C4 on a concrete record list and control state. -/
theorem c4_witness :
    filtered_data [[("名字", "Alice"), ("留言內容", "Hello world"),
        ("你現在的心情", "😊 開心"), ("時間", "2024-05-01 10:00:00")]]
      "你現在的心情" "留言內容" "名字" "😊 開心" "hello" "內容" =
    searchScopeFilter
      (moodEqFilter [[("名字", "Alice"), ("留言內容", "Hello world"),
        ("你現在的心情", "😊 開心"), ("時間", "2024-05-01 10:00:00")]]
        "你現在的心情" "😊 開心") "留言內容" "名字" "hello" "內容" :=
  c4_filter_pipeline _ "你現在的心情" "留言內容" "名字" "😊 開心" "hello" "內容"
    (Or.inl rfl)

/-- Helper: bumping key `kk` adds one to its count and leaves others. -/
theorem lookupCount_bump (m : List (String × Nat)) (kk k : String) :
    lookupCount (bumpCount m kk) k = lookupCount m k + (if kk = k then 1 else 0) := by
  induction m with
  | nil =>
    by_cases h : kk = k
    · subst h
      simp [bumpCount, lookupCount]
    · have hb : (kk == k) = false := by simp [h]
      simp [bumpCount, lookupCount, hb, h]
  | cons p rest ih =>
    obtain ⟨k1, v⟩ := p
    unfold bumpCount
    by_cases h1 : k1 = kk
    · subst h1
      simp only [beq_self_eq_true, if_true]
      by_cases h2 : k1 = k
      · subst h2
        simp [lookupCount]
      · have hb : (k1 == k) = false := by simp [h2]
        simp [lookupCount, hb, h2]
    · have hb1 : (k1 == kk) = false := by simp [h1]
      simp only [hb1, Bool.false_eq_true, if_false]
      by_cases h2 : k1 = k
      · subst h2
        have hkk : ¬ kk = k1 := fun he => h1 he.symm
        simp [lookupCount, hkk]
      · have hb2 : (k1 == k) = false := by simp [h2]
        simp [lookupCount, hb2, ih]

/-- Helper: the counting loop of `count_moods` tallies, for every key, the
number of entries whose (defaulted) mood equals that key. -/
theorem lookupCount_count_loop (mood_col : String) (data : List Record) :
    ∀ (m : List (String × Nat)) (k : String),
      lookupCount
        (data.foldl (fun m entry => bumpCount m (recordGetD entry mood_col "未知")) m) k
      = lookupCount m k +
          (data.filter (fun e => recordGetD e mood_col "未知" == k)).length := by
  induction data with
  | nil => intro m k; simp
  | cons e rest ih =>
    intro m k
    simp only [List.foldl_cons, List.filter_cons]
    rw [ih, lookupCount_bump]
    by_cases h : recordGetD e mood_col "未知" = k
    · simp [h]
      omega
    · have hb : (recordGetD e mood_col "未知" == k) = false := by simp [h]
      simp [h, hb]

/-- C5 counterexample: a record whose mood cell holds a value outside the
six enumerated moods (here "banana") is counted under its own label, not
under the 未知 sentinel, refuting the claim for unknown-but-present mood
values. -/
theorem c5_counterexample :
    count_moods "你現在的心情" [[("你現在的心情", "banana")]] = [("banana", 1)] ∧
    "banana" ∉ moods_display ∧
    ("banana" : String) ≠ "未知" ∧
    lookupCount (count_moods "你現在的心情" [[("你現在的心情", "banana")]]) "未知" = 0 := by
  decide

/-- C5 amended: the mood aggregation is a total function; every record is
counted under its (defaulted) mood value, so records with a missing mood
field are counted under 未知 while present values — known or not — count
under themselves; on the two-record 😊/😢 example it returns exactly
one count each. -/
theorem c5_mood_aggregation :
    (∀ (mood_col : String) (data : List Record) (k : String),
      lookupCount (count_moods mood_col data) k =
        (data.filter (fun e => recordGetD e mood_col "未知" == k)).length) ∧
    count_moods "你現在的心情" [[("你現在的心情", "😊")], [("你現在的心情", "😢")]]
      = [("😊", 1), ("😢", 1)] := by
  constructor
  · intro mood_col data k
    unfold count_moods
    rw [lookupCount_count_loop]
    simp [lookupCount]
  · decide

/-- Helper: a dictionary insertion of a pair from `S` keeps every stored
pair inside `S`. -/
theorem dictInsert_sub {S : List (String × String)} (r : Record) (k v : String)
    (hr : ∀ kv ∈ r, kv ∈ S) (hkv : (k, v) ∈ S) :
    ∀ kv ∈ dictInsert r k v, kv ∈ S := by
  intro kv hm
  unfold dictInsert at hm
  by_cases hc : (r.any fun p => p.1 == k) = true
  · rw [if_pos hc] at hm
    obtain ⟨p, hp, he⟩ := List.mem_map.1 hm
    by_cases hpk : (p.1 == k) = true
    · rw [if_pos hpk] at he
      exact he ▸ hkv
    · rw [if_neg hpk] at he
      exact he ▸ hr p hp
  · rw [if_neg hc] at hm
    rcases List.mem_append.1 hm with hq | hq
    · exact hr kv hq
    · have : kv = (k, v) := by simpa using hq
      exact this ▸ hkv

/-- Helper: folding dictionary insertions of pairs from `S` over an
accumulator inside `S` stays inside `S`. -/
theorem foldl_dictInsert_sub (ps : List (String × String)) :
    ∀ (acc : Record) (S : List (String × String)),
      (∀ kv ∈ acc, kv ∈ S) → (∀ kv ∈ ps, kv ∈ S) →
      ∀ kv ∈ ps.foldl (fun r kv => dictInsert r kv.1 kv.2) acc, kv ∈ S := by
  induction ps with
  | nil => intro acc S ha _ kv hm; exact ha kv hm
  | cons p t ih =>
    intro acc S ha hp kv hm
    simp only [List.foldl_cons] at hm
    refine ih (dictInsert acc p.1 p.2) S ?_ (fun kv h => hp kv (List.mem_cons_of_mem _ h))
      kv hm
    exact dictInsert_sub acc p.1 p.2 ha (by simpa using hp p (List.mem_cons_self _ _))

/-- Helper: every key-value pair a built record holds comes from zipping
the (disambiguated) headers with the row, so a record only has keys for
cells that are present and drops cells beyond the header count. -/
theorem buildRecord_sub (hs row : List String) :
    ∀ kv ∈ buildRecord hs row, kv ∈ hs.zip row := by
  intro kv hm
  exact foldl_dictInsert_sub (hs.zip row) [] (hs.zip row) (by simp) (fun kv h => h) kv hm

/-- C6: parsing a snapshot with zero rows or only a header row yields no
records; otherwise each parsed record comes from one data row, and each of
its key-value pairs pairs a disambiguated header with the cell at the same
position, so short rows are tolerated and cells beyond the header count
are dropped. -/
theorem c6_parse_tolerates :
    (∀ raw : List (List String), raw.length ≤ 1 → parseRows raw = []) ∧
    (∀ (headers : List String) (rest : List (List String)) (r : Record),
      r ∈ parseRows (headers :: rest) →
      ∃ row ∈ rest, r = buildRecord (uniqueHeaders headers) row ∧
        ∀ kv ∈ r, kv ∈ (uniqueHeaders headers).zip row) := by
  constructor
  · intro raw hlen
    rcases raw with _ | ⟨a, _ | ⟨b, t⟩⟩
    · rfl
    · rfl
    · simp at hlen
  · intro headers rest r hm
    have hpr : parseRows (headers :: rest) =
        if rest.isEmpty = true then []
        else rest.map (fun row => buildRecord (uniqueHeaders headers) row) := rfl
    rw [hpr] at hm
    by_cases hre : rest.isEmpty = true
    · rw [if_pos hre] at hm
      simp at hm
    · rw [if_neg hre] at hm
      obtain ⟨row, hrow, he⟩ := List.mem_map.1 hm
      refine ⟨row, hrow, he.symm, ?_⟩
      intro kv hkv
      exact buildRecord_sub _ row kv (by rw [he]; exact hkv)

/-- Witness for C6: a header-only snapshot parses to no records, and the
record parsed from a short row only holds the cells present. -/
theorem c6_witness :
    parseRows [["名字", "留言內容", "你現在的心情", "時間"]] = [] :=
  c6_parse_tolerates.1 [["名字", "留言內容", "你現在的心情", "時間"]] (by decide)

/-- Helper: decimal digit characters are never an underscore. -/
theorem digitChar_ne_underscore (k : Nat) (hk : k < 10) :
    Nat.digitChar k ≠ '_' := by
  interval_cases k <;> decide

/-- Helper: decimal digit characters decode back to their digit. -/
theorem digitChar_val (k : Nat) (hk : k < 10) :
    (Nat.digitChar k).toNat - 48 = k := by
  interval_cases k <;> decide

/-- Helper: decimal renderings contain no underscore. -/
theorem natDigitsAux_ne_underscore :
    ∀ (fuel n : Nat), n < fuel → ∀ c ∈ natDigitsAux fuel n, c ≠ '_' := by
  intro fuel
  induction fuel with
  | zero => intro n h; omega
  | succ f ih =>
    intro n hn c hc
    unfold natDigitsAux at hc
    by_cases h10 : n < 10
    · rw [if_pos h10] at hc
      simp at hc
      subst hc
      exact digitChar_ne_underscore n h10
    · rw [if_neg h10] at hc
      rcases List.mem_append.1 hc with h | h
      · exact ih (n / 10) (by omega) c h
      · have : c = Nat.digitChar (n % 10) := by simpa using h
        subst this
        exact digitChar_ne_underscore _ (Nat.mod_lt _ (by norm_num))

/-- Helper: appending one digit multiplies the decoded value by ten. -/
theorem valD_append_singleton (l : List Char) (c : Char) :
    valD (l ++ [c]) = valD l * 10 + (c.toNat - 48) := by
  unfold valD
  rw [List.foldl_append]
  rfl

/-- Helper: the decimal rendering decodes back to the rendered number. -/
theorem valD_natDigitsAux :
    ∀ (fuel n : Nat), n < fuel → valD (natDigitsAux fuel n) = n := by
  intro fuel
  induction fuel with
  | zero => intro n h; omega
  | succ f ih =>
    intro n hn
    unfold natDigitsAux
    by_cases h10 : n < 10
    · rw [if_pos h10]
      have : valD [Nat.digitChar n] = (Nat.digitChar n).toNat - 48 := by
        unfold valD
        simp
      rw [this, digitChar_val n h10]
    · rw [if_neg h10]
      rw [valD_append_singleton, ih (n / 10) (by omega),
        digitChar_val (n % 10) (Nat.mod_lt _ (by norm_num))]
      omega

/-- Helper: splitting two equal lists at their first underscore. -/
theorem underscore_split :
    ∀ (h1 h2 D1 D2 : List Char), ('_' : Char) ∉ h1 → ('_' : Char) ∉ h2 →
      h1 ++ '_' :: D1 = h2 ++ '_' :: D2 → h1 = h2 ∧ D1 = D2 := by
  intro h1
  induction h1 with
  | nil =>
    intro h2 D1 D2 _ hu2 he
    cases h2 with
    | nil =>
      simp only [List.nil_append, List.cons.injEq, true_and] at he
      exact ⟨rfl, he⟩
    | cons b t =>
      simp only [List.nil_append, List.cons_append, List.cons.injEq] at he
      exact absurd (he.1 ▸ List.mem_cons_self b t) hu2
  | cons a t ih =>
    intro h2 D1 D2 hu1 hu2 he
    cases h2 with
    | nil =>
      simp only [List.cons_append, List.nil_append, List.cons.injEq] at he
      exact absurd (he.1 ▸ List.mem_cons_self a t) hu1
    | cons b t2 =>
      simp only [List.cons_append, List.cons.injEq] at he
      obtain ⟨hab, hrest⟩ := he
      have hmain := ih t2 D1 D2 (fun hm => hu1 (List.mem_cons_of_mem _ hm))
        (fun hm => hu2 (List.mem_cons_of_mem _ hm)) hrest
      exact ⟨by rw [hab, hmain.1], hmain.2⟩

/-- Helper: the character data of a suffixed header name. -/
theorem suffixName_data (hd : String) (i : Nat) :
    (suffixName hd i).data = hd.data ++ '_' :: natDigitsAux (i + 1) i := by
  unfold suffixName natStr
  rw [String.data_append, String.data_append]
  simp

/-- Helper: every suffixed name contains an underscore. -/
theorem underscore_mem_suffixName (hd : String) (i : Nat) :
    ('_' : Char) ∈ (suffixName hd i).data := by
  rw [suffixName_data]
  exact List.mem_append_right _ (List.mem_cons_self _ _)

/-- Helper: suffixed names built from underscore-free headers determine
their index. -/
theorem suffixName_inj (ha hb : String) (i j : Nat)
    (ua : ('_' : Char) ∉ ha.data) (ub : ('_' : Char) ∉ hb.data)
    (he : suffixName ha i = suffixName hb j) : i = j := by
  have hd := congrArg String.data he
  rw [suffixName_data, suffixName_data] at hd
  obtain ⟨-, hD⟩ := underscore_split _ _ _ _ ua ub hd
  have hv := congrArg valD hD
  rwa [valD_natDigitsAux _ _ (Nat.lt_succ_self i),
    valD_natDigitsAux _ _ (Nat.lt_succ_self j)] at hv

/-- Helper: the `unique_headers` loop preserves its invariant. -/
theorem uniqueHeadersFrom_good :
    ∀ (t : List String) (acc : List String) (i : Nat),
      (∀ s ∈ t, ('_' : Char) ∉ s.data) → GoodAcc i acc →
      GoodAcc (i + t.length) (uniqueHeadersFrom acc i t) := by
  intro t
  induction t with
  | nil =>
    intro acc i _ hg
    simpa [uniqueHeadersFrom] using hg
  | cons h rest ih =>
    intro acc i hfree hg
    obtain ⟨hpw, hmem⟩ := hg
    have hh : ('_' : Char) ∉ h.data := hfree h (List.mem_cons_self _ _)
    have hrest : ∀ s ∈ rest, ('_' : Char) ∉ s.data :=
      fun s hs => hfree s (List.mem_cons_of_mem _ hs)
    have harith : i + (h :: rest).length = (i + 1) + rest.length := by
      simp [List.length_cons]
      omega
    unfold uniqueHeadersFrom
    by_cases hin : h ∈ acc
    · rw [if_pos hin, harith]
      refine ih (acc ++ [suffixName h i]) (i + 1) hrest ⟨?_, ?_⟩
      · rw [List.pairwise_append]
        refine ⟨hpw, List.pairwise_singleton _ _, ?_⟩
        intro a ha b hb
        have hb1 : b = suffixName h i := by simpa using hb
        subst hb1
        rcases hmem a ha with hfa | ⟨h0, j, hu0, hji, hsa⟩
        · intro he
          exact hfa (he ▸ underscore_mem_suffixName h i)
        · intro he
          rw [hsa] at he
          have := suffixName_inj h0 h j i hu0 hh he
          omega
      · intro s hs
        rcases List.mem_append.1 hs with hs | hs
        · rcases hmem s hs with hfa | ⟨h0, j, hu0, hji, hsa⟩
          · exact Or.inl hfa
          · exact Or.inr ⟨h0, j, hu0, by omega, hsa⟩
        · have : s = suffixName h i := by simpa using hs
          exact Or.inr ⟨h, i, hh, by omega, this⟩
    · rw [if_neg hin, harith]
      refine ih (acc ++ [h]) (i + 1) hrest ⟨?_, ?_⟩
      · rw [List.pairwise_append]
        refine ⟨hpw, List.pairwise_singleton _ _, ?_⟩
        intro a ha b hb
        have hb1 : b = h := by simpa using hb
        subst hb1
        intro he
        exact hin (he ▸ ha)
      · intro s hs
        rcases List.mem_append.1 hs with hs | hs
        · rcases hmem s hs with hfa | ⟨h0, j, hu0, hji, hsa⟩
          · exact Or.inl hfa
          · exact Or.inr ⟨h0, j, hu0, by omega, hsa⟩
        · have : s = h := by simpa using hs
          exact Or.inl (this ▸ hh)

/-- C7 counterexample: on the header row x, x_2, x the disambiguation
produces x, x_2, x_2 — the suffixed replacement for the duplicate x at
index 2 collides with the existing header x_2, so the output is not
pairwise distinct. -/
theorem c7_counterexample :
    uniqueHeaders ["x", "x_2", "x"] = ["x", "x_2", "x_2"] ∧
    ¬ (uniqueHeaders ["x", "x_2", "x"]).Pairwise (· ≠ ·) := by decide

/-- C7 amended: the header disambiguation produces pairwise distinct names
for every header row whose names contain no underscore (the suffix
collision of the counterexample needs a header that already carries an
underscore-index suffix). -/
theorem c7_unique_headers (headers : List String)
    (hfree : ∀ s ∈ headers, ('_' : Char) ∉ s.data) :
    (uniqueHeaders headers).Pairwise (· ≠ ·) := by
  have hg := uniqueHeadersFrom_good headers [] 0 hfree ⟨List.Pairwise.nil, by simp⟩
  exact hg.1

/-- Witness for C7 on the duplicated header row of the application schema. -/
theorem c7_witness :
    (uniqueHeaders ["名字", "名字"]).Pairwise (· ≠ ·) :=
  c7_unique_headers ["名字", "名字"] (by decide)
